import Mathlib

/-!
Shallow embedding of `src/phy/tuntap_interface.rs` (smoltcp TUN/TAP device
adapter).

The adapter wraps an OS descriptor (`sys::TunTapInterfaceDesc`, outside
`src/`) behind an `Arc<Mutex<_>>`.  In this embedding the descriptor state is
threaded explicitly: every operation that in Rust locks the mutex and acts on
the shared descriptor here takes the descriptor state and returns the updated
state.  Byte buffers (`Vec<u8>`, `&mut [u8]`) are `List Nat`; machine-level
truncation plays no role here so bytes stay plain `Nat`.  A Rust closure
`FnOnce(&mut [u8]) -> Result<R>` becomes a function `List Nat → List Nat ×
SmolResult R` returning the mutated buffer together with the result (a `&mut
[u8]` cannot change the slice length, so length preservation is a hypothesis
where it matters).
-/

/-- The `crate::Error` type of smoltcp (outside `src/`); its variants are
irrelevant to this adapter, which only passes values of this type through. -/
inductive SmolError where
  | err (code : Nat)
deriving DecidableEq, Repr

/-- `crate::Result<R>` of smoltcp: `Result<R, crate::Error>`. -/
inductive SmolResult (R : Type) where
  | ok (r : R)
  | error (e : SmolError)
deriving DecidableEq, Repr

/-- `std::io::ErrorKind`, reduced to the distinction the source makes:
`WouldBlock` versus everything else. -/
inductive IoErrorKind where
  | wouldBlock
  | other (code : Nat)
deriving DecidableEq, Repr

/-- `std::io::Result<A>`. -/
inductive IoResult (A : Type) where
  | ok (a : A)
  | err (k : IoErrorKind)
deriving DecidableEq, Repr

/-- `Medium` of `crate::phy` (outside `src/`). Modelled from the spec:
`medium (Ethernet | IP)`. -/
inductive Medium where
  | ethernet
  | ip
deriving DecidableEq, Repr

/-- Outcome of one non-blocking read attempt at the descriptor: a packet of
`data` bytes is available, the read would block, or the read fails fatally
with an error of the given kind code. -/
inductive RecvEvent where
  | packet (data : List Nat)
  | wouldBlock
  | fatal (code : Nat)
deriving DecidableEq, Repr

/-- Modelled from the spec: `sys::TunTapInterfaceDesc` (outside `src/`), the
black-box "Descriptor" providing non-blocking read and write.  Its externally
visible behaviour is an environment-chosen sequence of read outcomes
(`recvEvents`), an environment-chosen sequence of write outcomes
(`sendEvents`, `true` = the write succeeds), and the observable log `sent` of
every buffer passed to a write. -/
structure TunTapInterfaceDesc where
  recvEvents : List RecvEvent
  sendEvents : List Bool
  sent : List (List Nat)
deriving DecidableEq, Repr

/-- `Vec::resize(new_len, value)`: truncate to `new_len` if shorter,
otherwise pad with `value`. -/
def listResize (l : List Nat) (n : Nat) (v : Nat) : List Nat :=
  if n ≤ l.length then l.take n else l ++ List.replicate (n - l.length) v

/-- Modelled from the spec: the descriptor's non-blocking read
(`sys::TunTapInterfaceDesc::recv`).  Consumes the next read outcome; a packet
is copied into the caller's buffer, truncated to the buffer's capacity, and
the number of bytes copied is returned (an empty outcome list reads as
would-block). -/
def TunTapInterfaceDesc.recv (self : TunTapInterfaceDesc) (buf : List Nat) :
    IoResult (Nat × List Nat) × TunTapInterfaceDesc :=
  match self.recvEvents with
  | [] => (.err .wouldBlock, self)
  | e :: rest =>
    let next := { self with recvEvents := rest }
    match e with
    | .packet d =>
      let n := min d.length buf.length
      (.ok (n, d.take n ++ buf.drop n), next)
    | .wouldBlock => (.err .wouldBlock, next)
    | .fatal c => (.err (.other c), next)

/-- Modelled from the spec: the descriptor's write
(`sys::TunTapInterfaceDesc::send`).  Every invocation logs the buffer it was
given; the next write outcome decides success (an empty outcome list reads as
success), and a successful write reports the byte count. -/
def TunTapInterfaceDesc.send (self : TunTapInterfaceDesc) (buf : List Nat) :
    IoResult Nat × TunTapInterfaceDesc :=
  match self.sendEvents with
  | [] => (.ok buf.length, { self with sent := self.sent ++ [buf] })
  | ok :: rest =>
    let next := { self with sendEvents := rest, sent := self.sent ++ [buf] }
    if ok then (.ok buf.length, next) else (.err (.other 0), next)

/-- Whether the descriptor's next write will succeed. -/
def TunTapInterfaceDesc.sendWillSucceed (self : TunTapInterfaceDesc) : Bool :=
  match self.sendEvents with
  | [] => true
  | ok :: _ => ok

/-- `TunTapInterface`: the device handle.  In Rust `lower` is
`Arc<Mutex<sys::TunTapInterfaceDesc>>`; here the descriptor state is held
directly and threaded through the operations, the lock's serialization being
reflected by each operation acting on the state atomically. -/
structure TunTapInterface where
  lower : TunTapInterfaceDesc
  mtu : Nat
  medium : Medium
deriving DecidableEq, Repr

/-- `DeviceCapabilities` (outside `src/`), restricted to the two fields this
adapter sets; the remaining fields come from `DeviceCapabilities::default()`
and are untouched by this component. -/
structure DeviceCapabilities where
  max_transmission_unit : Nat
  medium : Medium
deriving DecidableEq, Repr

/-- `TunTapInterface::capabilities`. -/
def TunTapInterface.capabilities (self : TunTapInterface) : DeviceCapabilities :=
  { max_transmission_unit := self.mtu, medium := self.medium }

/-- `RxToken`: owns the received bytes. -/
structure RxToken where
  buffer : List Nat
deriving DecidableEq, Repr

/-- `TxToken`: in Rust it holds a clone of the `Arc<Mutex<_>>` descriptor
handle; in this embedding the shared descriptor state is passed to `consume`
explicitly, so the token itself carries no data. -/
structure TxToken where
deriving DecidableEq, Repr

/-- Result of `TunTapInterface::receive`: a token pair and the advanced
handle, no packet (`WouldBlock`) and the advanced handle, or a `panic!` (any
other read error) carrying the error code. -/
inductive ReceiveOutcome where
  | tokens (rx : RxToken) (tx : TxToken) (next : TunTapInterface)
  | noPacket (next : TunTapInterface)
  | panicked (code : Nat)
deriving DecidableEq, Repr

/-- `TunTapInterface::receive` (`Device::receive`): lock the descriptor,
allocate a zeroed buffer of `mtu` bytes, attempt one non-blocking read; on
`Ok(size)` resize the buffer to `size` and return an `RxToken` owning it
paired with a fresh `TxToken` on the same handle; on `WouldBlock` return
`None`; on any other error `panic!`. -/
def TunTapInterface.receive (self : TunTapInterface) : ReceiveOutcome :=
  let buffer := List.replicate self.mtu 0
  match self.lower.recv buffer with
  | (.ok (size, buf), lower) =>
    .tokens { buffer := listResize buf size 0 } {} { self with lower := lower }
  | (.err .wouldBlock, lower) => .noPacket { self with lower := lower }
  | (.err (.other c), _) => .panicked c

/-- `TunTapInterface::transmit` (`Device::transmit`): unconditionally issue a
`TxToken`; the handle (and so the descriptor) is untouched. -/
def TunTapInterface.transmit (self : TunTapInterface) :
    Option TxToken × TunTapInterface :=
  (some {}, self)

/-- `RxToken::consume`: apply the callback to the owned buffer and return its
result; the descriptor is never touched (the token holds no handle). -/
def RxToken.consume {R : Type} (self : RxToken) (_timestamp : Nat)
    (f : List Nat → List Nat × SmolResult R) : SmolResult R :=
  (f self.buffer).2

/-- Result of `TxToken::consume`: either the callback's result together with
the descriptor after the write, or a `panic!` (the `.unwrap()` on a failed
write) with the descriptor state at the panic. -/
inductive TxConsumeOutcome (R : Type) where
  | returned (result : SmolResult R) (lower : TunTapInterfaceDesc)
  | panicked (lower : TunTapInterfaceDesc)
deriving DecidableEq, Repr

/-- `TxToken::consume`: lock the descriptor, allocate a zeroed buffer of
`len` bytes, run the callback on it, then `send` the populated buffer and
`.unwrap()` the write's result (panicking if the write failed) before
returning the callback's result. -/
def TxToken.consume {R : Type} (_self : TxToken) (_timestamp : Nat)
    (lower : TunTapInterfaceDesc) (len : Nat)
    (f : List Nat → List Nat × SmolResult R) : TxConsumeOutcome R :=
  let buffer := List.replicate len 0
  let fOut := f buffer
  match lower.send fOut.1 with
  | (.ok _, lower) => .returned fOut.2 lower
  | (.err _, lower) => .panicked lower

/-- The descriptor state after a `TxToken::consume`, whether it returned or
panicked. -/
def TxConsumeOutcome.descAfter {R : Type} :
    TxConsumeOutcome R → TunTapInterfaceDesc
  | .returned _ lower => lower
  | .panicked lower => lower

/-- The value a `TxToken::consume` handed back to its caller, or `none` if it
panicked instead of returning. -/
def TxConsumeOutcome.returnedValue {R : Type} :
    TxConsumeOutcome R → Option (SmolResult R)
  | .returned r _ => some r
  | .panicked _ => none

/-- One caller-visible operation on a device handle, for stating lifetime
invariants: a receive poll, a transmit poll, or a transmit-token consumption
whose callback writes `payload`. -/
inductive DeviceOp where
  | pollReceive
  | pollTransmit
  | txConsume (len : Nat) (payload : List Nat)
deriving DecidableEq, Repr

/-- Apply one operation to the handle (on a receive panic the handle is kept
as-is: the calling context is gone). -/
def TunTapInterface.applyOp (self : TunTapInterface) : DeviceOp → TunTapInterface
  | .pollReceive =>
    match self.receive with
    | .tokens _ _ next => next
    | .noPacket next => next
    | .panicked _ => self
  | .pollTransmit => (self.transmit).2
  | .txConsume len payload =>
    match TxToken.consume {} 0 self.lower len
        (fun _ => (payload, SmolResult.ok 0)) with
    | .returned _ lower => { self with lower := lower }
    | .panicked lower => { self with lower := lower }

/-- Run a sequence of operations against the handle. -/
def TunTapInterface.runOps (self : TunTapInterface) :
    List DeviceOp → TunTapInterface
  | [] => self
  | op :: ops => (self.applyOp op).runOps ops

/-- `TunTapInterface::new`: the three external setup steps
(`sys::TunTapInterfaceDesc::new`, `attach_interface`, `interface_mtu`, all
outside `src/`) are modelled from the spec as environment-supplied fallible
outcomes; the source chains them with `?` and only then constructs the
handle. -/
def TunTapInterface.new (_name : String) (medium : Medium)
    (descOutcome : IoResult TunTapInterfaceDesc)
    (attachOutcome : TunTapInterfaceDesc → IoResult TunTapInterfaceDesc)
    (mtuOutcome : TunTapInterfaceDesc → IoResult Nat) :
    IoResult TunTapInterface :=
  match descOutcome with
  | .err e => .err e
  | .ok lower =>
    match attachOutcome lower with
    | .err e => .err e
    | .ok lower =>
      match mtuOutcome lower with
      | .err e => .err e
      | .ok mtu => .ok { lower := lower, mtu := mtu, medium := medium }

/-- `TunTapInterface::new_with_fd`: same chain of fallible steps as `new`,
starting from `sys::TunTapInterfaceDesc::new_with_fd` on an existing fd. -/
def TunTapInterface.new_with_fd (_fd : Int) (medium : Medium)
    (descOutcome : IoResult TunTapInterfaceDesc)
    (attachOutcome : TunTapInterfaceDesc → IoResult TunTapInterfaceDesc)
    (mtuOutcome : TunTapInterfaceDesc → IoResult Nat) :
    IoResult TunTapInterface :=
  match descOutcome with
  | .err e => .err e
  | .ok lower =>
    match attachOutcome lower with
    | .err e => .err e
    | .ok lower =>
      match mtuOutcome lower with
      | .err e => .err e
      | .ok mtu => .ok { lower := lower, mtu := mtu, medium := medium }

/-! ## Helper lemmas -/

lemma listResize_take_append (a b : List Nat) :
    listResize (a ++ b) a.length 0 = a := by
  simp [listResize, List.take_left]

lemma receive_next_fields (self next : TunTapInterface) :
    (∀ rx tx, self.receive = ReceiveOutcome.tokens rx tx next →
      next.mtu = self.mtu ∧ next.medium = self.medium)
    ∧ (self.receive = ReceiveOutcome.noPacket next →
      next.mtu = self.mtu ∧ next.medium = self.medium) := by
  constructor
  · intro rx tx h
    simp only [TunTapInterface.receive] at h
    split at h
    · cases h
      exact ⟨rfl, rfl⟩
    · cases h
    · cases h
  · intro h
    simp only [TunTapInterface.receive] at h
    split at h
    · cases h
    · cases h
      exact ⟨rfl, rfl⟩
    · cases h

lemma applyOp_preserves_caps (self : TunTapInterface) (op : DeviceOp) :
    (self.applyOp op).mtu = self.mtu ∧ (self.applyOp op).medium = self.medium := by
  cases op with
  | pollReceive =>
    unfold TunTapInterface.applyOp
    cases h : self.receive with
    | tokens rx tx nxt =>
      simp only [h]
      exact (receive_next_fields self nxt).1 rx tx h
    | noPacket nxt =>
      simp only [h]
      exact (receive_next_fields self nxt).2 h
    | panicked c => simp [h]
  | pollTransmit => exact ⟨rfl, rfl⟩
  | txConsume len payload =>
    unfold TunTapInterface.applyOp
    cases hc : TxToken.consume {} 0 self.lower len
        (fun _ => (payload, SmolResult.ok 0)) with
    | returned r lower => simp [hc]
    | panicked lower => simp [hc]

/-! ## Claim theorems -/

/-- C1: a `receive` call on a handle with cached mtu `m` allocates an
`m`-byte buffer and attempts one non-blocking read; when the read delivers a
packet, the returned `RxToken` owns exactly the `n` delivered bytes
(`0 ≤ n ≤ m`, never the full mtu-sized allocation), paired with a fresh
`TxToken` on the same handle, and exactly one read outcome is consumed. -/
theorem tuntap_receive_packet_tokens (self : TunTapInterface) (d : List Nat)
    (rest : List RecvEvent)
    (h : self.lower.recvEvents = RecvEvent.packet d :: rest) :
    self.receive = ReceiveOutcome.tokens
        { buffer := d.take (min d.length self.mtu) } {}
        { self with lower := { self.lower with recvEvents := rest } }
    ∧ (d.take (min d.length self.mtu)).length = min d.length self.mtu
    ∧ min d.length self.mtu ≤ self.mtu := by
  have hn : (d.take (min d.length self.mtu)).length = min d.length self.mtu := by
    rw [List.length_take]
    omega
  refine ⟨?_, hn, Nat.min_le_right _ _⟩
  have hresize := listResize_take_append (d.take (min d.length self.mtu))
    ((List.replicate self.mtu 0).drop (min d.length self.mtu))
  rw [hn] at hresize
  simp only [TunTapInterface.receive, TunTapInterfaceDesc.recv, h,
    List.length_replicate, hresize]

/-- C4: on a would-block read `receive` returns no packet, consuming exactly
the one read outcome (no internal retry); on any other read failure the call
panics (aborts the calling context) instead of returning an error value. -/
theorem tuntap_receive_wouldblock_and_fatal (self : TunTapInterface) :
    (∀ rest, self.lower.recvEvents = RecvEvent.wouldBlock :: rest →
      self.receive = ReceiveOutcome.noPacket
        { self with lower := { self.lower with recvEvents := rest } })
    ∧ (∀ c rest, self.lower.recvEvents = RecvEvent.fatal c :: rest →
      self.receive = ReceiveOutcome.panicked c) := by
  constructor
  · intro rest h
    simp [TunTapInterface.receive, TunTapInterfaceDesc.recv, h]
  · intro c rest h
    simp [TunTapInterface.receive, TunTapInterfaceDesc.recv, h]

/-- C5: consuming an `RxToken` applies the callback to exactly the owned
buffer (the bytes of the one underlying read, no descriptor access in the
type) and returns the callback's result verbatim; an identity callback
yields the original received bytes unchanged. -/
theorem rxtoken_consume_exact_buffer {R : Type} (b : List Nat) (t : Nat)
    (f : List Nat → List Nat × SmolResult R) :
    RxToken.consume { buffer := b } t f = (f b).2
    ∧ RxToken.consume { buffer := b } t (fun buf => (buf, SmolResult.ok buf))
        = SmolResult.ok b :=
  ⟨rfl, rfl⟩

/-- C6: `transmit` always succeeds immediately with a token and leaves the
handle — hence the descriptor state — completely untouched. -/
theorem tuntap_transmit_always_token (self : TunTapInterface) :
    (self.transmit).1 = some TxToken.mk ∧ (self.transmit).2 = self :=
  ⟨rfl, rfl⟩

/-- C7: `capabilities` is a pure projection of the values cached at open
time, and is invariant under every sequence of receive/transmit/consume
operations on the handle. -/
theorem tuntap_capabilities_lifetime_invariant (self : TunTapInterface)
    (ops : List DeviceOp) :
    (self.runOps ops).capabilities = self.capabilities
    ∧ self.capabilities
        = { max_transmission_unit := self.mtu, medium := self.medium } := by
  refine ⟨?_, rfl⟩
  induction ops generalizing self with
  | nil => rfl
  | cons op ops ih =>
    have h := applyOp_preserves_caps self op
    calc (self.runOps (op :: ops)).capabilities
        = ((self.applyOp op).runOps ops).capabilities := rfl
      _ = (self.applyOp op).capabilities := ih _
      _ = self.capabilities := by
          simp [TunTapInterface.capabilities, h.1, h.2]

/-- C2: consuming a `TxToken` with requested length `len` runs the callback
on a zero-initialized buffer of exactly `len` bytes and issues exactly one
write to the descriptor, whose content is exactly the buffer as populated by
the callback (of length `len`, since a `&mut [u8]` callback preserves
length); the read side of the descriptor is untouched. -/
theorem txtoken_consume_single_write {R : Type} (lower : TunTapInterfaceDesc)
    (t len : Nat) (f : List Nat → List Nat × SmolResult R)
    (hf : (f (List.replicate len 0)).1.length = len) :
    (TxToken.consume {} t lower len f).descAfter.sent
        = lower.sent ++ [(f (List.replicate len 0)).1]
    ∧ (f (List.replicate len 0)).1.length = len
    ∧ (TxToken.consume {} t lower len f).descAfter.recvEvents
        = lower.recvEvents := by
  refine ⟨?_, hf, ?_⟩ <;>
  · unfold TxToken.consume TunTapInterfaceDesc.send
    cases hs : lower.sendEvents with
    | nil => simp [TxConsumeOutcome.descAfter]
    | cons ok rest => cases ok <;> simp [TxConsumeOutcome.descAfter]

/-- C3 (amended): `TxToken::consume` hands the callback's result back to the
caller exactly when the physical write succeeds, in which case the write's
outcome (the byte count) is discarded; when the write fails, the `.unwrap()`
panics and nothing is returned to the caller. -/
theorem txtoken_consume_result_iff_send_ok {R : Type}
    (lower : TunTapInterfaceDesc) (t len : Nat)
    (f : List Nat → List Nat × SmolResult R) :
    (TxToken.consume {} t lower len f).returnedValue
      = if lower.sendWillSucceed
          then some (f (List.replicate len 0)).2
          else none := by
  unfold TxToken.consume TunTapInterfaceDesc.send TunTapInterfaceDesc.sendWillSucceed
  cases lower.sendEvents with
  | nil => simp [TxConsumeOutcome.returnedValue]
  | cons ok rest => cases ok <;> simp [TxConsumeOutcome.returnedValue]

/-- C3 (counterexample): with a descriptor whose next write fails, the claim
"the callback's result is returned regardless of whether the physical write
succeeded or failed" is false: the call panics (`.unwrap()` on the failed
write) and returns nothing, so the returned value is `none`, not
`some (SmolResult.ok 42)`. -/
theorem txtoken_consume_swallow_cex :
    (TxToken.consume {} 0 { recvEvents := [], sendEvents := [false], sent := [] }
        1 (fun b => (b, SmolResult.ok (42 : Nat)))).returnedValue = none := by
  rfl

/-- C10 (amended): when the callback returns an error result, the write of
the populated buffer to the descriptor is still performed (the error does not
skip or roll back the send), and — provided the physical write succeeds — the
callback's error result is then returned to the caller. -/
theorem txtoken_consume_error_still_writes {R : Type}
    (lower : TunTapInterfaceDesc) (t len : Nat)
    (f : List Nat → List Nat × SmolResult R) (e : SmolError)
    (he : (f (List.replicate len 0)).2 = SmolResult.error e) :
    (TxToken.consume {} t lower len f).descAfter.sent
        = lower.sent ++ [(f (List.replicate len 0)).1]
    ∧ (lower.sendWillSucceed = true →
        (TxToken.consume {} t lower len f).returnedValue
          = some (SmolResult.error e)) := by
  constructor
  · unfold TxToken.consume TunTapInterfaceDesc.send
    cases hs : lower.sendEvents with
    | nil => simp [TxConsumeOutcome.descAfter]
    | cons ok rest => cases ok <;> simp [TxConsumeOutcome.descAfter]
  · intro hok
    rw [txtoken_consume_result_iff_send_ok, hok, if_pos rfl, he]

/-- C10 (counterexample): at a descriptor whose next write fails and a
callback returning an error, the write is still performed (the populated
buffer is logged at the descriptor) but the callback's error result is not
returned to the caller — the call panics, so the returned value is `none`. -/
theorem txtoken_consume_error_cex :
    ((TxToken.consume {} 0 { recvEvents := [], sendEvents := [false], sent := [] }
        2 (fun b => (b, (SmolResult.error (SmolError.err 9) : SmolResult Nat)))).returnedValue
      = none)
    ∧ (TxToken.consume {} 0 { recvEvents := [], sendEvents := [false], sent := [] }
        2 (fun b => (b, (SmolResult.error (SmolError.err 9) : SmolResult Nat)))).descAfter.sent
      = [[0, 0]] := by
  exact ⟨rfl, rfl⟩

/-- C8: `new` and `new_with_fd` chain the three external setup steps
(descriptor creation/attachment, attach, MTU query); the first failing step's
error is returned as the setup failure and no handle is constructed, and a
handle is constructed exactly when all three steps succeed, caching the
queried mtu and the given medium. -/
theorem tuntap_new_setup_error (name : String) (fd : Int) (medium : Medium)
    (descOutcome : IoResult TunTapInterfaceDesc)
    (attachOutcome : TunTapInterfaceDesc → IoResult TunTapInterfaceDesc)
    (mtuOutcome : TunTapInterfaceDesc → IoResult Nat) :
    (∀ e, descOutcome = .err e →
      TunTapInterface.new name medium descOutcome attachOutcome mtuOutcome = .err e
      ∧ TunTapInterface.new_with_fd fd medium descOutcome attachOutcome mtuOutcome = .err e)
    ∧ (∀ d e, descOutcome = .ok d → attachOutcome d = .err e →
      TunTapInterface.new name medium descOutcome attachOutcome mtuOutcome = .err e
      ∧ TunTapInterface.new_with_fd fd medium descOutcome attachOutcome mtuOutcome = .err e)
    ∧ (∀ d d' e, descOutcome = .ok d → attachOutcome d = .ok d' →
        mtuOutcome d' = .err e →
      TunTapInterface.new name medium descOutcome attachOutcome mtuOutcome = .err e
      ∧ TunTapInterface.new_with_fd fd medium descOutcome attachOutcome mtuOutcome = .err e)
    ∧ (∀ d d' m, descOutcome = .ok d → attachOutcome d = .ok d' →
        mtuOutcome d' = .ok m →
      TunTapInterface.new name medium descOutcome attachOutcome mtuOutcome
          = .ok { lower := d', mtu := m, medium := medium }
      ∧ TunTapInterface.new_with_fd fd medium descOutcome attachOutcome mtuOutcome
          = .ok { lower := d', mtu := m, medium := medium }) := by
  refine ⟨?_, ?_, ?_, ?_⟩
  · intro e h
    constructor <;> simp [TunTapInterface.new, TunTapInterface.new_with_fd, h]
  · intro d e hd ha
    constructor <;> simp [TunTapInterface.new, TunTapInterface.new_with_fd, hd, ha]
  · intro d d' e hd ha hm
    constructor <;>
      simp [TunTapInterface.new, TunTapInterface.new_with_fd, hd, ha, hm]
  · intro d d' m hd ha hm
    constructor <;>
      simp [TunTapInterface.new, TunTapInterface.new_with_fd, hd, ha, hm]

/-! ## Witnesses -/

/-- Witness for C1: a 3-byte packet on a handle with mtu 4 yields a token
pair whose receive token owns exactly the 3 delivered bytes. -/
theorem tuntap_receive_packet_tokens_witness :
    ({ lower := { recvEvents := [RecvEvent.packet [7, 8, 9]], sendEvents := [],
                  sent := [] },
       mtu := 4, medium := Medium.ethernet } : TunTapInterface).receive
      = ReceiveOutcome.tokens { buffer := [7, 8, 9] } {}
          { lower := { recvEvents := [], sendEvents := [], sent := [] },
            mtu := 4, medium := Medium.ethernet } := by
  have h := tuntap_receive_packet_tokens
      { lower := { recvEvents := [RecvEvent.packet [7, 8, 9]], sendEvents := [],
                   sent := [] },
        mtu := 4, medium := Medium.ethernet } [7, 8, 9] [] rfl
  simpa using h.1

/-- Witness for C2: consuming a transmit token with length 3 and an identity
callback logs exactly one write of the 3-byte zeroed buffer. -/
theorem txtoken_consume_single_write_witness :
    (TxToken.consume {} 0 { recvEvents := [], sendEvents := [], sent := [] } 3
        (fun b => (b, SmolResult.ok (5 : Nat)))).descAfter.sent = [[0, 0, 0]] := by
  have h := txtoken_consume_single_write
      { recvEvents := [], sendEvents := [], sent := [] } 0 3
      (fun b => (b, SmolResult.ok (5 : Nat))) (by decide)
  simpa using h.1

/-- Witness for C4: a would-block read outcome yields no packet with the one
outcome consumed; a fatal read outcome panics with its code. -/
theorem tuntap_receive_wouldblock_and_fatal_witness :
    (({ lower := { recvEvents := [RecvEvent.wouldBlock], sendEvents := [],
                   sent := [] },
        mtu := 2, medium := Medium.ip } : TunTapInterface).receive
      = ReceiveOutcome.noPacket
          { lower := { recvEvents := [], sendEvents := [], sent := [] },
            mtu := 2, medium := Medium.ip })
    ∧ (({ lower := { recvEvents := [RecvEvent.fatal 3], sendEvents := [],
                     sent := [] },
          mtu := 2, medium := Medium.ip } : TunTapInterface).receive
      = ReceiveOutcome.panicked 3) := by
  constructor
  · exact (tuntap_receive_wouldblock_and_fatal _).1 [] rfl
  · exact (tuntap_receive_wouldblock_and_fatal _).2 3 [] rfl

/-- Witness for C8: a failing descriptor-creation step makes both `new` and
`new_with_fd` return that setup error. -/
theorem tuntap_new_setup_error_witness :
    TunTapInterface.new "tap0" Medium.ethernet (IoResult.err (IoErrorKind.other 1))
        (fun d => IoResult.ok d) (fun _ => IoResult.ok 1500)
      = IoResult.err (IoErrorKind.other 1)
    ∧ TunTapInterface.new_with_fd 3 Medium.ethernet
        (IoResult.err (IoErrorKind.other 1))
        (fun d => IoResult.ok d) (fun _ => IoResult.ok 1500)
      = IoResult.err (IoErrorKind.other 1) := by
  exact (tuntap_new_setup_error "tap0" 3 Medium.ethernet _ _ _).1
    (IoErrorKind.other 1) rfl

/-- Witness for C10 (amended): an error-returning callback still gets its
buffer written, and with a succeeding write the error is handed back. -/
theorem txtoken_consume_error_still_writes_witness :
    ((TxToken.consume {} 0 { recvEvents := [], sendEvents := [true], sent := [] }
        1 (fun b => (b, (SmolResult.error (SmolError.err 7) : SmolResult Nat)))).descAfter.sent
      = [[0]])
    ∧ ((TxToken.consume {} 0 { recvEvents := [], sendEvents := [true], sent := [] }
        1 (fun b => (b, (SmolResult.error (SmolError.err 7) : SmolResult Nat)))).returnedValue
      = some (SmolResult.error (SmolError.err 7))) := by
  have h := txtoken_consume_error_still_writes
      { recvEvents := [], sendEvents := [true], sent := [] } 0 1
      (fun b => (b, (SmolResult.error (SmolError.err 7) : SmolResult Nat)))
      (SmolError.err 7) rfl
  exact ⟨by simpa using h.1, h.2 rfl⟩
